import Mathlib

/-!
Shallow embedding of the voice-session core of `src/App.tsx` (Thầy.AI).

The embedded code:
  * the silence detector `checkSilence` (App.tsx lines 140-150), polled at
    animation-frame cadence;
  * the capture control `stopRecording` (lines 63-70) and chunk collection
    `handleDataAvailable` (lines 72-74) together with utterance assembly;
  * the stop-completed handler `handleStop` (lines 76-115), which performs the
    analyze / synthesize round trip and starts playback.

External collaborators (the Gemini service calls, audio decoding, playback
completion) are modelled as an oracle of outcomes: the handler is a pure
function of the pre-state and that oracle, returning the post-state together
with the list of observable actions it performed, in program order.
-/

set_option maxRecDepth 4000

namespace ThayApp

/-- `SILENCE_THRESHOLD = 15` (App.tsx line 13). -/
def SILENCE_THRESHOLD : Nat := 15

/-- `SILENCE_DURATION = 2000` ms (App.tsx line 14). -/
def SILENCE_DURATION : Nat := 2000

/-- Mean amplitude strictly above the threshold (App.tsx line 144-145):
`dataArray.reduce((a, b) => a + b) / dataArray.length > SILENCE_THRESHOLD`.
The analyser's `frequencyBinCount` is 32 (fftSize 64, line 58), a power of
two, so the JavaScript float division is exact and the comparison agrees
with the cross-multiplied integer comparison used here. -/
def meanAbove (data : List Nat) : Bool :=
  decide (SILENCE_THRESHOLD * data.length < data.sum)

/-- Detector-side state of one listening phase: `lastSoundTimeRef` (line 27),
whether a next polling tick is scheduled (`animationFrameRef`, line 28, plus
the initial direct call on line 150), and how many stop signals
(`stopRecording()` calls from line 147) have been emitted. -/
structure DetState where
  lastSoundTime : Nat
  framePending : Bool
  stopSignals : Nat
deriving DecidableEq, Repr

/-- Detector state at the start of a listening phase: `lastSoundTimeRef.current
= Date.now()` (line 138) and the immediate first invocation of `checkSilence`
(line 150). -/
def initDet (t0 : Nat) : DetState :=
  { lastSoundTime := t0, framePending := true, stopSignals := 0 }

/-- One tick of `checkSilence` (App.tsx lines 140-149) at time `now`.
`sample = none` models `analyserRef.current` being null: the tick returns at
line 141 without scheduling another frame. Otherwise the mean amplitude is
compared to the threshold; an above-threshold mean resets `lastSoundTimeRef`
to `now` (line 145); if more than `SILENCE_DURATION` ms elapsed since the last
above-threshold sample, `stopRecording()` is invoked (line 147) — which does
not schedule a further frame — else the next frame is requested (line 148).
Time subtraction is `Nat` truncated; `Date.now()` never precedes
`lastSoundTimeRef` within a phase, and in either model a non-positive elapsed
time fails the `> SILENCE_DURATION` test. -/
def checkSilence (st : DetState) (now : Nat) (sample : Option (List Nat)) :
    DetState :=
  match sample with
  | none => { st with framePending := false }
  | some data =>
    let last := if meanAbove data then now else st.lastSoundTime
    if SILENCE_DURATION < now - last then
      { lastSoundTime := last, framePending := false,
        stopSignals := st.stopSignals + 1 }
    else
      { lastSoundTime := last, framePending := true,
        stopSignals := st.stopSignals }

/-- Run the polling loop over a list of `(tick time, amplitude sample)` pairs.
A tick executes only while a frame is scheduled; once no frame is pending
(stop emitted, or the analyser was unavailable) the remaining ticks never run,
mirroring `requestAnimationFrame` chaining. -/
def runSilence (st : DetState) : List (Nat × Option (List Nat)) → DetState
  | [] => st
  | (t, s) :: rest =>
    if st.framePending then runSilence (checkSilence st t s) rest else st

/-- A sample list whose mean is at or below the threshold. -/
def silentSample (data : List Nat) : Prop :=
  data.sum ≤ SILENCE_THRESHOLD * data.length

instance (data : List Nat) : Decidable (silentSample data) := by
  unfold silentSample; infer_instance

lemma meanAbove_eq_false_of_silent {data : List Nat} (h : silentSample data) :
    meanAbove data = false := by
  simp [meanAbove, silentSample] at *
  omega

/-- On a tick with a silent sample, the detector either fires (elapsed time
strictly above the window) or reschedules, keeping `lastSoundTime`. -/
lemma checkSilence_silent {st : DetState} {now : Nat} {data : List Nat}
    (h : silentSample data) :
    checkSilence st now (some data) =
      if SILENCE_DURATION < now - st.lastSoundTime then
        { lastSoundTime := st.lastSoundTime, framePending := false,
          stopSignals := st.stopSignals + 1 }
      else
        { lastSoundTime := st.lastSoundTime, framePending := true,
          stopSignals := st.stopSignals } := by
  simp [checkSilence, meanAbove_eq_false_of_silent h]

/-- Once no frame is pending, no further tick runs: the run is inert. -/
lemma runSilence_halted (st : DetState) (h : st.framePending = false) :
    ∀ l : List (Nat × Option (List Nat)), runSilence st l = st := by
  intro l
  cases l with
  | nil => rfl
  | cons q qs =>
    obtain ⟨t, s⟩ := q
    simp [runSilence, h]

/-- Sustained silence fires the detector exactly once and stops the loop:
if every sample is silent and some tick happens strictly later than
`t0 + SILENCE_DURATION`, the run ends with one stop signal and no scheduled
frame. -/
lemma runSilence_sustained_silence (t0 : Nat) :
    ∀ ticks : List (Nat × Option (List Nat)),
      (∀ p ∈ ticks, ∃ d, p.2 = some d ∧ silentSample d) →
      (∃ p ∈ ticks, t0 + SILENCE_DURATION < p.1) →
      ∀ st : DetState, st.lastSoundTime = t0 → st.framePending = true →
        st.stopSignals = 0 →
        (runSilence st ticks).stopSignals = 1 ∧
          (runSilence st ticks).framePending = false := by
  intro ticks
  induction ticks with
  | nil =>
    intro _ hfire
    rcases hfire with ⟨p, hp, _⟩
    exact absurd hp (List.not_mem_nil p)
  | cons head rest ih =>
    intro hsil hfire st hlast hframe hstops
    obtain ⟨t, s⟩ := head
    obtain ⟨d, hd, hds⟩ := hsil (t, s) (List.mem_cons_self _ _)
    simp only at hd
    subst hd
    have hrun : runSilence st ((t, some d) :: rest) =
        runSilence (checkSilence st t (some d)) rest := by
      simp [runSilence, hframe]
    by_cases hlate : SILENCE_DURATION < t - t0
    · -- this tick fires; the loop halts with one stop signal
      rw [hrun, checkSilence_silent hds, hlast, if_pos hlate,
        runSilence_halted _ rfl]
      simp [hstops]
    · -- this tick reschedules; the firing tick is in the tail
      rw [hrun, checkSilence_silent hds, hlast, if_neg hlate]
      refine ih ?_ ?_ _ rfl rfl ?_
      · intro p hp
        exact hsil p (List.mem_cons_of_mem _ hp)
      · rcases hfire with ⟨p, hp, hpt⟩
        rcases List.mem_cons.mp hp with hph | hpr
        · exfalso
          rw [hph] at hpt
          simp only at hpt
          omega
        · exact ⟨p, hpr, hpt⟩
      · simp [hstops]

/-- A tick within the trailing window never fires: if at most
`SILENCE_DURATION` ms have passed since the last above-threshold sample,
no stop signal is emitted and the next frame is scheduled, for any sample. -/
lemma checkSilence_within_window (st : DetState) (now : Nat)
    (data : List Nat) (h : now ≤ st.lastSoundTime + SILENCE_DURATION) :
    (checkSilence st now (some data)).stopSignals = st.stopSignals ∧
      (checkSilence st now (some data)).framePending = true := by
  unfold checkSilence
  by_cases hm : meanAbove data
  · simp only [hm, if_pos]
    have hz : now - now = 0 := Nat.sub_self now
    constructor <;> simp [hz, SILENCE_DURATION]
  · simp only [Bool.not_eq_true] at hm
    simp only [hm, if_neg, Bool.false_eq_true, if_false]
    have hne : ¬ SILENCE_DURATION < now - st.lastSoundTime := by omega
    simp [hne]

/-! ### Session data model -/

/-- `AppState` (imported from `./types`, used as the `state` React state,
App.tsx line 17): the four session lifecycle states. -/
inductive AppState where
  | idle
  | listening
  | processing
  | speaking
deriving DecidableEq, Repr

/-- The fields of `ZenResponse` that `handleStop` reads: `emotion`,
`wisdom_vi` and the optional `breathing` descriptor (App.tsx lines 89-92).
Remaining fields of the analysis result are opaque to the session core. -/
structure ZenResponse where
  emotion : String
  wisdom_vi : String
  breathing : Option String
deriving DecidableEq, Repr

/-! ### Capture control: `stopRecording`, `handleDataAvailable` -/

/-- `MediaRecorder.state` values of the recording device. -/
inductive RecState where
  | inactive
  | recording
  | paused
deriving DecidableEq, Repr

/-- The refs touched by `stopRecording` (App.tsx lines 63-70): the recorder
handle (`mediaRecorderRef`, `none` when never created), the session state,
the pending animation frame and silence timer (`animationFrameRef`,
`silenceTimerRef`), and a count of `mediaRecorder.stop()` requests issued
(each such request asynchronously triggers the `onstop` = stop-completed
callback exactly once). `lastSoundTime` carries the silence detector's
progress so the theorems can quantify over it. -/
structure RecorderCtl where
  recorder : Option RecState
  state : AppState
  animationFramePending : Bool
  silenceTimerPending : Bool
  lastSoundTime : Nat
  stopRequests : Nat
deriving DecidableEq, Repr

/-- `stopRecording` (App.tsx lines 63-70): if the recorder exists and its
device state is not `inactive`, request a device stop (which puts the device
in `inactive` and will fire the stop-completed callback) and set the session
state to `processing`; in every case cancel the pending animation frame and
clear the pending silence timer. -/
def stopRecording (m : RecorderCtl) : RecorderCtl :=
  let m1 :=
    match m.recorder with
    | some r =>
      if r ≠ RecState.inactive then
        { m with
            recorder := some RecState.inactive
            state := AppState.processing
            stopRequests := m.stopRequests + 1 }
      else m
    | none => m
  { m1 with animationFramePending := false, silenceTimerPending := false }

/-- Whether the device is actively recording in the sense of the
`mediaRecorderRef.current && mediaRecorderRef.current.state !== 'inactive'`
guard on line 64. -/
def recActive (m : RecorderCtl) : Bool :=
  match m.recorder with
  | some r => r ≠ RecState.inactive
  | none => false

/-- An audio chunk (`Blob`), modelled by its byte content; `size` is the
length. -/
abbrev AudioChunk := List Nat

/-- `handleDataAvailable` (App.tsx lines 72-74): push the delivered chunk
onto the buffer only when `event.data.size > 0`. -/
def handleDataAvailable (chunks : List AudioChunk) (c : AudioChunk) :
    List AudioChunk :=
  if 0 < c.length then chunks ++ [c] else chunks

/-- Chunk buffer at the start of a listening phase:
`audioChunksRef.current = []` (App.tsx line 129) overwrites the buffer left
by the previous phase, whatever it held. -/
def clearChunks (_old : List AudioChunk) : List AudioChunk := []

/-- The chunk buffer at the end of one listening phase that began with the
previous phase's buffer `prior` still in the ref and in which the device
delivered `deliveries`, in order: `startListening` clears the buffer
(line 129) and every delivery goes through `handleDataAvailable`. -/
def capturePhase (prior deliveries : List AudioChunk) : List AudioChunk :=
  deliveries.foldl handleDataAvailable (clearChunks prior)

/-- `new Blob(audioChunksRef.current)` (App.tsx line 78): the captured
utterance is the concatenation of the buffered chunks. -/
def assembleUtterance (chunks : List AudioChunk) : List Nat :=
  chunks.flatten

/-! ### The stop-completed handler `handleStop` -/

deriving instance DecidableEq for Except

/-- Outcomes of the external collaborators and async events consumed by one
run of `handleStop`: the `analyzeAudio` result, the `generateSpeech` result
(`Except.error` models a rejected promise caught on line 104), whether
`decodeAudioData` succeeds, and whether the started playback runs to
completion (fires `source.onended`). -/
structure Oracle where
  analyzeResult : Except String ZenResponse
  synthResult : Except String (List Nat)
  decodeOk : Bool
  playbackCompletes : Bool
deriving DecidableEq, Repr

/-- Observable actions of one `handleStop` run, in program order. -/
inductive Ev where
  | setSt (s : AppState)
  | setZen (z : Option ZenResponse)
  | playAmbientEv (emotion : String)
  | startBreathingEv (pattern : String)
  | surfaceAlert
  | registerOnended
  | playbackStart
  | playbackEnded
deriving DecidableEq, Repr

/-- The session-visible refs and state read or written by `handleStop`:
the `state` and `zenData` React state, and whether `audioContextRef.current`
and `analyserRef.current` are non-null at the moment of the run. -/
structure Session where
  state : AppState
  zenData : Option ZenResponse
  hasAudioContext : Bool
  hasAnalyser : Bool
deriving DecidableEq, Repr

/-- `handleStop` (App.tsx lines 76-115), as a function of the pre-state and
the oracle, returning the post-state and the trace of observable actions.
Program order (inside `reader.onloadend`, lines 81-109):
`analyzeAudio` (line 85, a failure jumps to the catch on line 104);
`setZenData(analysis)` (86); `playAmbient(analysis.emotion)` (89);
`startBreathing` when a breathing descriptor is present (90);
`generateSpeech` (92, failure jumps to the catch); `setState('speaking')`
(94); only if both the audio context and the analyser are present (95):
`decodeAudioData` (96, failure jumps to the catch — note the state is
already `speaking` then), `source.onended = ...` registration (101) and
`source.start(0)` (102); when the started playback ends, `onended` fires
and sets the state to `idle` (101). The catch (104-108) sets the state to
`idle` and surfaces one `alert`. -/
def handleStop (s : Session) (o : Oracle) : Session × List Ev :=
  match o.analyzeResult with
  | Except.error _ =>
    ({ s with state := AppState.idle },
     [Ev.setSt AppState.idle, Ev.surfaceAlert])
  | Except.ok analysis =>
    let s1 := { s with zenData := some analysis }
    let ambient : List Ev :=
      [Ev.setZen (some analysis), Ev.playAmbientEv analysis.emotion] ++
        (match analysis.breathing with
         | some b => [Ev.startBreathingEv b]
         | none => [])
    match o.synthResult with
    | Except.error _ =>
      ({ s1 with state := AppState.idle },
       ambient ++ [Ev.setSt AppState.idle, Ev.surfaceAlert])
    | Except.ok _ =>
      let evs := ambient ++ [Ev.setSt AppState.speaking]
      if s.hasAudioContext && s.hasAnalyser then
        if o.decodeOk then
          let evs := evs ++ [Ev.registerOnended, Ev.playbackStart]
          if o.playbackCompletes then
            ({ s1 with state := AppState.idle },
             evs ++ [Ev.playbackEnded, Ev.setSt AppState.idle])
          else
            ({ s1 with state := AppState.speaking }, evs)
        else
          ({ s1 with state := AppState.idle },
           evs ++ [Ev.setSt AppState.idle, Ev.surfaceAlert])
      else
        ({ s1 with state := AppState.speaking }, evs)

/-! ### Helper lemmas for the capture control -/

lemma stopRecording_of_not_active {m : RecorderCtl} (h : recActive m = false) :
    stopRecording m =
      { m with animationFramePending := false, silenceTimerPending := false } := by
  unfold stopRecording
  cases hrec : m.recorder with
  | none => simp [hrec]
  | some r =>
    have hr : r = RecState.inactive := by
      by_contra hne
      simp [recActive, hrec, hne] at h
    subst hr
    simp [hrec]

lemma stopRecording_of_active {m : RecorderCtl} (h : recActive m = true) :
    stopRecording m =
      { m with
          recorder := some RecState.inactive
          state := AppState.processing
          stopRequests := m.stopRequests + 1
          animationFramePending := false
          silenceTimerPending := false } := by
  unfold stopRecording
  cases hrec : m.recorder with
  | none => simp [recActive, hrec] at h
  | some r =>
    have hr : r ≠ RecState.inactive := by
      intro hne
      subst hne
      simp [recActive, hrec] at h
    simp [hrec, hr]

lemma recActive_stopRecording (m : RecorderCtl) :
    recActive (stopRecording m) = false := by
  cases h : recActive m with
  | false => rw [stopRecording_of_not_active h]; simpa [recActive] using h
  | true => rw [stopRecording_of_active h]; simp [recActive]

lemma stopRecording_idem (m : RecorderCtl) :
    stopRecording (stopRecording m) = stopRecording m := by
  rw [stopRecording_of_not_active (recActive_stopRecording m)]
  cases h : recActive m with
  | false => rw [stopRecording_of_not_active h]
  | true => rw [stopRecording_of_active h]

/-! ### Helper lemmas for chunk buffering -/

lemma foldl_handleDataAvailable (ds : List AudioChunk) :
    ∀ acc : List AudioChunk,
      ds.foldl handleDataAvailable acc =
        acc ++ ds.filter (fun c => decide (0 < c.length)) := by
  induction ds with
  | nil => intro acc; simp
  | cons c cs ih =>
    intro acc
    by_cases h : 0 < c.length
    · simp [List.foldl_cons, handleDataAvailable, h, ih]
    · simp [List.foldl_cons, handleDataAvailable, h, ih]

lemma capturePhase_eq_filter (prior ds : List AudioChunk) :
    capturePhase prior ds = ds.filter (fun c => decide (0 < c.length)) := by
  unfold capturePhase clearChunks
  simpa using foldl_handleDataAvailable ds []

/-! ### Claim theorems -/

/-- C1. For every listening phase, the silence detector emits its stop signal
exactly once and stops scheduling further ticks when the mean sampled
amplitude has stayed at or below the threshold (15) since phase start and a
tick falls strictly outside the 2000 ms window; and on any tick taken within
2000 ms of the last above-threshold sample, no stop signal is emitted and the
next tick is scheduled. -/
theorem checkSilence_stop_iff_sustained_silence
    (t0 : Nat) (ticks : List (Nat × Option (List Nat)))
    (st : DetState) (now : Nat) (data : List Nat)
    (hsil : ∀ p ∈ ticks, ∃ d, p.2 = some d ∧ silentSample d)
    (hfire : ∃ p ∈ ticks, t0 + SILENCE_DURATION < p.1)
    (hwin : now ≤ st.lastSoundTime + SILENCE_DURATION) :
    (runSilence (initDet t0) ticks).stopSignals = 1 ∧
    (runSilence (initDet t0) ticks).framePending = false ∧
    (checkSilence st now (some data)).stopSignals = st.stopSignals ∧
    (checkSilence st now (some data)).framePending = true := by
  obtain ⟨h1, h2⟩ :=
    runSilence_sustained_silence t0 ticks hsil hfire (initDet t0) rfl rfl rfl
  obtain ⟨h3, h4⟩ := checkSilence_within_window st now data hwin
  exact ⟨h1, h2, h3, h4⟩

/-- C1 witness: a phase starting at t0 = 0 with silent samples at 16 ms and
2100 ms fires exactly once; a tick at 500 ms, 400 ms after the last
above-threshold sample, does not fire and reschedules. -/
theorem checkSilence_stop_witness :
    (runSilence (initDet 0) [(16, some [10, 10]), (2100, some [0, 0])]).stopSignals = 1 ∧
    (runSilence (initDet 0) [(16, some [10, 10]), (2100, some [0, 0])]).framePending = false ∧
    (checkSilence ⟨100, true, 0⟩ 500 (some [99])).stopSignals = 0 ∧
    (checkSilence ⟨100, true, 0⟩ 500 (some [99])).framePending = true :=
  checkSilence_stop_iff_sustained_silence 0
    [(16, some [10, 10]), (2100, some [0, 0])] ⟨100, true, 0⟩ 500 [99]
    (by decide) (by decide) (by decide)

/-- C4 counterexample: on a tick with the analyser unavailable the loop does
NOT keep scheduling ticks — the pending frame is dropped, and even though the
analyser is available again at the next scheduled time (2100 ms, beyond the
silence window), that tick never runs and no stop signal is ever emitted. -/
theorem checkSilence_unavailable_halts_loop_cex :
    ¬ ((checkSilence (initDet 0) 16 none).framePending = true) ∧
    (runSilence (initDet 0) [(16, none), (2100, some [0, 0])]).stopSignals = 0 ∧
    (runSilence (initDet 0) [(16, none), (2100, some [0, 0])]).framePending = false := by
  decide

/-- C4 amended: on a tick where the analyser is unavailable, the tick emits no
stop signal, does not crash and leaves the detector's data untouched, but it
schedules no further tick: the polling loop halts for the remainder of the
phase instead of resuming when the analyser becomes available again. -/
theorem checkSilence_unavailable_noop_no_reschedule (st : DetState) (now : Nat) :
    checkSilence st now none = { st with framePending := false } := rfl

/-- C6. Using the explicit stop control while listening (the recorder device
is active) moves the session state directly to `processing`, whatever the
silence detector's progress, cancels the pending silence-polling tick and
clears the pending silence timer; a second stop afterwards issues no further
stop request and leaves the state at `processing`. -/
theorem stopRecording_listening_to_processing (m : RecorderCtl)
    (_hs : m.state = AppState.listening)
    (hr : m.recorder = some RecState.recording) :
    (stopRecording m).state = AppState.processing ∧
    (stopRecording m).animationFramePending = false ∧
    (stopRecording m).silenceTimerPending = false ∧
    (stopRecording (stopRecording m)).stopRequests = (stopRecording m).stopRequests ∧
    (stopRecording (stopRecording m)).state = AppState.processing := by
  have ha : recActive m = true := by simp [recActive, hr]
  rw [stopRecording_idem, stopRecording_of_active ha]
  simp

/-- C6 witness: a listening-phase state with detector mid-progress. -/
theorem stopRecording_listening_to_processing_witness :
    (stopRecording ⟨some RecState.recording, AppState.listening, true, true, 1234, 0⟩).state
        = AppState.processing ∧
    (stopRecording ⟨some RecState.recording, AppState.listening, true, true, 1234, 0⟩).animationFramePending
        = false ∧
    (stopRecording ⟨some RecState.recording, AppState.listening, true, true, 1234, 0⟩).silenceTimerPending
        = false ∧
    (stopRecording (stopRecording ⟨some RecState.recording, AppState.listening, true, true, 1234, 0⟩)).stopRequests
        = (stopRecording ⟨some RecState.recording, AppState.listening, true, true, 1234, 0⟩).stopRequests ∧
    (stopRecording (stopRecording ⟨some RecState.recording, AppState.listening, true, true, 1234, 0⟩)).state
        = AppState.processing :=
  stopRecording_listening_to_processing
    ⟨some RecState.recording, AppState.listening, true, true, 1234, 0⟩ rfl rfl

/-- C7. Capture stop is idempotent: when the device is not actively recording
it is a no-op on the session state, the recorder and the stop-request count;
when it is recording it requests exactly one device stop (which will trigger
the stop-completed callback) and leaves the device inactive; applying it
twice equals applying it once. -/
theorem stopRecording_idempotent (m m2 : RecorderCtl)
    (hn : recActive m = false) (h2 : recActive m2 = true) :
    (stopRecording m).state = m.state ∧
    (stopRecording m).recorder = m.recorder ∧
    (stopRecording m).stopRequests = m.stopRequests ∧
    (stopRecording m2).stopRequests = m2.stopRequests + 1 ∧
    (stopRecording m2).recorder = some RecState.inactive ∧
    stopRecording (stopRecording m2) = stopRecording m2 ∧
    stopRecording (stopRecording m) = stopRecording m := by
  rw [stopRecording_idem, stopRecording_idem,
    stopRecording_of_not_active hn, stopRecording_of_active h2]
  simp

/-- C7 witness: stopping an idle device changes nothing it owns; stopping a
recording device issues exactly one stop request. -/
theorem stopRecording_idempotent_witness :
    (stopRecording ⟨some RecState.inactive, AppState.idle, false, false, 0, 3⟩).state
        = AppState.idle ∧
    (stopRecording ⟨some RecState.inactive, AppState.idle, false, false, 0, 3⟩).recorder
        = some RecState.inactive ∧
    (stopRecording ⟨some RecState.inactive, AppState.idle, false, false, 0, 3⟩).stopRequests
        = 3 ∧
    (stopRecording ⟨some RecState.recording, AppState.listening, true, false, 0, 0⟩).stopRequests
        = 0 + 1 ∧
    (stopRecording ⟨some RecState.recording, AppState.listening, true, false, 0, 0⟩).recorder
        = some RecState.inactive ∧
    stopRecording (stopRecording ⟨some RecState.recording, AppState.listening, true, false, 0, 0⟩)
        = stopRecording ⟨some RecState.recording, AppState.listening, true, false, 0, 0⟩ ∧
    stopRecording (stopRecording ⟨some RecState.inactive, AppState.idle, false, false, 0, 3⟩)
        = stopRecording ⟨some RecState.inactive, AppState.idle, false, false, 0, 3⟩ :=
  stopRecording_idempotent
    ⟨some RecState.inactive, AppState.idle, false, false, 0, 3⟩
    ⟨some RecState.recording, AppState.listening, true, false, 0, 0⟩
    (by decide) (by decide)

/-- C8. No chunk crosses listening phases: a new phase clears the buffer left
by the previous phase, the end-of-phase buffer does not depend on the
previous phase's buffer at all, every chunk of it was delivered during the
current phase, and the assembled utterance is built from exactly the
non-empty chunks delivered during the current phase. -/
theorem capturePhase_no_cross_phase_chunks
    (prior deliveries : List AudioChunk) (c : AudioChunk)
    (hc : c ∈ capturePhase prior deliveries) :
    clearChunks prior = ([] : List AudioChunk) ∧
    capturePhase prior deliveries = capturePhase [] deliveries ∧
    c ∈ deliveries ∧
    assembleUtterance (capturePhase prior deliveries) =
      assembleUtterance (deliveries.filter (fun x => decide (0 < x.length))) := by
  refine ⟨rfl, ?_, ?_, ?_⟩
  · rw [capturePhase_eq_filter, capturePhase_eq_filter]
  · rw [capturePhase_eq_filter] at hc
    exact List.mem_of_mem_filter hc
  · rw [capturePhase_eq_filter]

/-- C8 witness: with phase-N buffer `[[7]]` still around, a phase delivering
`[[2], [], [3]]` yields exactly its own non-empty chunks. -/
theorem capturePhase_no_cross_phase_chunks_witness :
    clearChunks [[7]] = ([] : List AudioChunk) ∧
    capturePhase [[7]] [[2], [], [3]] = capturePhase [] [[2], [], [3]] ∧
    [2] ∈ [[2], [], ([3] : AudioChunk)] ∧
    assembleUtterance (capturePhase [[7]] [[2], [], [3]]) =
      assembleUtterance ([[2], [], [3]].filter (fun x => decide (0 < x.length))) :=
  capturePhase_no_cross_phase_chunks [[7]] [[2], [], [3]] [2] (by decide)

/-- C2. A cycle whose capture stopped, whose analyze and synthesize calls both
succeed, whose audio graph is present, whose decode succeeds and whose
playback runs to completion ends in `idle`, stores exactly the analysis
result returned by `analyzeAudio`, and performs exactly one playback. -/
theorem handleStop_success_cycle (s : Session) (o : Oracle)
    (r : ZenResponse) (buf : List Nat)
    (ha : o.analyzeResult = Except.ok r)
    (hsy : o.synthResult = Except.ok buf)
    (hctx : s.hasAudioContext = true) (han : s.hasAnalyser = true)
    (hdec : o.decodeOk = true) (hpc : o.playbackCompletes = true) :
    (handleStop s o).1.state = AppState.idle ∧
    (handleStop s o).1.zenData = some r ∧
    ((handleStop s o).2.count Ev.playbackStart) = 1 := by
  cases hb : r.breathing <;>
    simp [handleStop, ha, hsy, hctx, han, hdec, hpc, hb, List.count_cons,
      List.count_append]

/-- C2 witness: a concrete successful cycle. -/
theorem handleStop_success_cycle_witness :
    (handleStop ⟨AppState.processing, none, true, true⟩
        ⟨Except.ok ⟨"calm", "w", none⟩, Except.ok [1, 2], true, true⟩).1.state
      = AppState.idle ∧
    (handleStop ⟨AppState.processing, none, true, true⟩
        ⟨Except.ok ⟨"calm", "w", none⟩, Except.ok [1, 2], true, true⟩).1.zenData
      = some ⟨"calm", "w", none⟩ ∧
    ((handleStop ⟨AppState.processing, none, true, true⟩
        ⟨Except.ok ⟨"calm", "w", none⟩, Except.ok [1, 2], true, true⟩).2.count
      Ev.playbackStart) = 1 :=
  handleStop_success_cycle ⟨AppState.processing, none, true, true⟩
    ⟨Except.ok ⟨"calm", "w", none⟩, Except.ok [1, 2], true, true⟩
    ⟨"calm", "w", none⟩ [1, 2] rfl rfl rfl rfl rfl rfl

/-- C3. A cycle in which the analyze call fails, or the analyze call succeeds
and the synthesize call fails, ends in `idle`, surfaces exactly one
user-visible notice, and starts no playback. -/
theorem handleStop_failure_idle_alert_no_playback (s : Session) (o : Oracle)
    (h : (∃ e, o.analyzeResult = Except.error e) ∨
      (∃ r e, o.analyzeResult = Except.ok r ∧ o.synthResult = Except.error e)) :
    (handleStop s o).1.state = AppState.idle ∧
    ((handleStop s o).2.count Ev.surfaceAlert) = 1 ∧
    ((handleStop s o).2.count Ev.playbackStart) = 0 := by
  rcases h with ⟨e, he⟩ | ⟨r, e, hr, he⟩
  · simp [handleStop, he, List.count_cons]
  · cases hb : r.breathing <;>
      simp [handleStop, hr, he, hb, List.count_cons, List.count_append]

/-- C3 witness: a concrete cycle whose synthesize call fails. -/
theorem handleStop_failure_idle_alert_no_playback_witness :
    (handleStop ⟨AppState.processing, none, true, true⟩
        ⟨Except.ok ⟨"sad", "w", some "478"⟩, Except.error "network", true, true⟩).1.state
      = AppState.idle ∧
    ((handleStop ⟨AppState.processing, none, true, true⟩
        ⟨Except.ok ⟨"sad", "w", some "478"⟩, Except.error "network", true, true⟩).2.count
      Ev.surfaceAlert) = 1 ∧
    ((handleStop ⟨AppState.processing, none, true, true⟩
        ⟨Except.ok ⟨"sad", "w", some "478"⟩, Except.error "network", true, true⟩).2.count
      Ev.playbackStart) = 0 :=
  handleStop_failure_idle_alert_no_playback ⟨AppState.processing, none, true, true⟩
    ⟨Except.ok ⟨"sad", "w", some "478"⟩, Except.error "network", true, true⟩
    (Or.inr ⟨⟨"sad", "w", some "478"⟩, "network", rfl, rfl⟩)

/-- Concrete cycle for the C5 counterexample: analyze succeeds, synthesize
fails. -/
def sessionC5 : Session :=
  { state := AppState.processing, zenData := none,
    hasAudioContext := true, hasAnalyser := true }

def zenC5 : ZenResponse :=
  { emotion := "calm", wisdom_vi := "w", breathing := none }

def oracleC5 : Oracle :=
  { analyzeResult := Except.ok zenC5, synthResult := Except.error "network",
    decodeOk := true, playbackCompletes := true }

/-- C5 counterexample: in a cycle entering processing with no stored
AnalysisResult whose synthesize call fails, the stored AnalysisResult after
the failure is the freshly analyzed value, not the value held at the start of
the processing phase — partial state is retained. -/
theorem handleStop_failure_retains_partial_state_cex :
    ¬ ((handleStop sessionC5 oracleC5).1.zenData = sessionC5.zenData) := by
  decide

/-- C5 amended: when the analyze call fails, the stored AnalysisResult is
unchanged and the state reverts to `idle`; but when the synthesize call fails
after a successful analyze, the AnalysisResult stored by that analyze is
retained across the failure (and the state still reverts to `idle`). -/
theorem handleStop_failure_partial_state (s t : Session) (o1 o2 : Oracle)
    (r : ZenResponse) (e1 e2 : String)
    (h1 : o1.analyzeResult = Except.error e1)
    (h2a : o2.analyzeResult = Except.ok r)
    (h2s : o2.synthResult = Except.error e2) :
    (handleStop s o1).1.zenData = s.zenData ∧
    (handleStop s o1).1.state = AppState.idle ∧
    (handleStop t o2).1.zenData = some r ∧
    (handleStop t o2).1.state = AppState.idle := by
  refine ⟨?_, ?_, ?_, ?_⟩ <;>
    cases hb : r.breathing <;> simp [handleStop, h1, h2a, h2s, hb]

/-- C5 amended witness: concrete analyze-failure and synthesize-failure
cycles. -/
theorem handleStop_failure_partial_state_witness :
    (handleStop ⟨AppState.processing, some ⟨"old", "o", none⟩, true, true⟩
        ⟨Except.error "down", Except.ok [1], true, true⟩).1.zenData
      = some ⟨"old", "o", none⟩ ∧
    (handleStop ⟨AppState.processing, some ⟨"old", "o", none⟩, true, true⟩
        ⟨Except.error "down", Except.ok [1], true, true⟩).1.state
      = AppState.idle ∧
    (handleStop sessionC5 oracleC5).1.zenData = some zenC5 ∧
    (handleStop sessionC5 oracleC5).1.state = AppState.idle :=
  handleStop_failure_partial_state
    ⟨AppState.processing, some ⟨"old", "o", none⟩, true, true⟩ sessionC5
    ⟨Except.error "down", Except.ok [1], true, true⟩ oracleC5
    zenC5 "down" "network" rfl rfl rfl

/-- Concrete cycle for the C9 counterexample: analyze and synthesize succeed,
the audio graph is present, but `decodeAudioData` fails. -/
def sessionC9 : Session :=
  { state := AppState.processing, zenData := none,
    hasAudioContext := true, hasAnalyser := true }

def oracleC9 : Oracle :=
  { analyzeResult := Except.ok ⟨"calm", "w", none⟩, synthResult := Except.ok [1],
    decodeOk := false, playbackCompletes := true }

/-- C9 counterexample: a cycle that reaches `speaking` and ends `idle` without
the playback-completion callback ever firing — the decode-failure catch
handler, not the completion callback, set the state to `idle`. -/
theorem speaking_to_idle_not_only_onended_cex :
    ¬ (Ev.setSt AppState.speaking ∈ (handleStop sessionC9 oracleC9).2 →
        (handleStop sessionC9 oracleC9).1.state = AppState.idle →
        Ev.playbackEnded ∈ (handleStop sessionC9 oracleC9).2) := by
  decide

/-- C9 amended: whenever a cycle reaches `speaking` and ends `idle`, either
the playback-completion callback fired, or the audio decode failed and the
catch handler reverted to `idle` surfacing a notice; the embedding contains
no timer, so no timer ever drives the transition. -/
theorem speaking_to_idle_triggers (s : Session) (o : Oracle)
    (hsp : Ev.setSt AppState.speaking ∈ (handleStop s o).2)
    (hid : (handleStop s o).1.state = AppState.idle) :
    Ev.playbackEnded ∈ (handleStop s o).2 ∨
      (o.decodeOk = false ∧ Ev.surfaceAlert ∈ (handleStop s o).2) := by
  rcases ha : o.analyzeResult with e | r
  · simp [handleStop, ha] at hsp
  · rcases hsy : o.synthResult with e | buf
    · cases hb : r.breathing <;> simp [handleStop, ha, hsy, hb] at hsp
    · cases hg : s.hasAudioContext && s.hasAnalyser with
      | false =>
        cases hb : r.breathing <;> simp [handleStop, ha, hsy, hg, hb] at hid
      | true =>
        cases hdec : o.decodeOk with
        | false =>
          refine Or.inr ⟨rfl, ?_⟩
          cases hb : r.breathing <;> simp [handleStop, ha, hsy, hg, hdec, hb]
        | true =>
          cases hpc : o.playbackCompletes with
          | false =>
            cases hb : r.breathing <;>
              simp [handleStop, ha, hsy, hg, hdec, hpc, hb] at hid
          | true =>
            refine Or.inl ?_
            cases hb : r.breathing <;>
              simp [handleStop, ha, hsy, hg, hdec, hpc, hb]

/-- C9 amended witness: the decode-failure cycle reaches `speaking`, ends
`idle`, and the surfaced notice — not the completion callback — accounts for
it. -/
theorem speaking_to_idle_triggers_witness :
    Ev.playbackEnded ∈ (handleStop sessionC9 oracleC9).2 ∨
      (oracleC9.decodeOk = false ∧
        Ev.surfaceAlert ∈ (handleStop sessionC9 oracleC9).2) :=
  speaking_to_idle_triggers sessionC9 oracleC9 (by decide) (by decide)

/-- C10. When analyze and synthesize both succeed but the shared audio context
or the analyser is absent at playback time, the machine still sets the state
to `speaking`, performs no playback, registers no completion callback,
surfaces no notice, and never sets the state to `idle` in that cycle. -/
theorem handleStop_missing_audio_graph (s : Session) (o : Oracle)
    (r : ZenResponse) (buf : List Nat)
    (ha : o.analyzeResult = Except.ok r)
    (hsy : o.synthResult = Except.ok buf)
    (hg : (s.hasAudioContext && s.hasAnalyser) = false) :
    (handleStop s o).1.state = AppState.speaking ∧
    Ev.playbackStart ∉ (handleStop s o).2 ∧
    Ev.registerOnended ∉ (handleStop s o).2 ∧
    Ev.surfaceAlert ∉ (handleStop s o).2 ∧
    Ev.setSt AppState.idle ∉ (handleStop s o).2 := by
  cases hb : r.breathing <;> simp [handleStop, ha, hsy, hg, hb]

/-- C10 witness: a successful round trip with the analyser missing sticks in
`speaking` with no playback and no notice. -/
theorem handleStop_missing_audio_graph_witness :
    (handleStop ⟨AppState.processing, none, true, false⟩
        ⟨Except.ok ⟨"joy", "w", some "box"⟩, Except.ok [9], true, true⟩).1.state
      = AppState.speaking ∧
    Ev.playbackStart ∉ (handleStop ⟨AppState.processing, none, true, false⟩
        ⟨Except.ok ⟨"joy", "w", some "box"⟩, Except.ok [9], true, true⟩).2 ∧
    Ev.registerOnended ∉ (handleStop ⟨AppState.processing, none, true, false⟩
        ⟨Except.ok ⟨"joy", "w", some "box"⟩, Except.ok [9], true, true⟩).2 ∧
    Ev.surfaceAlert ∉ (handleStop ⟨AppState.processing, none, true, false⟩
        ⟨Except.ok ⟨"joy", "w", some "box"⟩, Except.ok [9], true, true⟩).2 ∧
    Ev.setSt AppState.idle ∉ (handleStop ⟨AppState.processing, none, true, false⟩
        ⟨Except.ok ⟨"joy", "w", some "box"⟩, Except.ok [9], true, true⟩).2 :=
  handleStop_missing_audio_graph ⟨AppState.processing, none, true, false⟩
    ⟨Except.ok ⟨"joy", "w", some "box"⟩, Except.ok [9], true, true⟩
    ⟨"joy", "w", some "box"⟩ [9] rfl rfl rfl

end ThayApp
